import Mathlib

/-!
Shallow embedding of `src/snapshot-delete-script.py` (the Orphan-Snapshot
Reaper lambda).  The script lists the account's EBS snapshots, checks for
each snapshot whether its originating volume still exists, collects the
snapshots whose volume is gone into the list `snapshot_id`, and then tries
to delete each collected snapshot.

The embedding models the boto3/EC2 provider as a record of three operations
(`describe_snapshots`, `describe_volume_status`, `delete_snapshot`) and the
handler as a pure function from a provider to a run trace: the ordered list
of volume-status calls made, the ordered list of delete calls made, the log
records emitted, and the final outcome (a returned dict or a raised Python
exception).

Two facts about the external world that the embedding fixes, because the
provider (boto3/EC2) guarantees them:
  * a snapshot record returned by `describe_snapshots` carries its fields
    under the keys "SnapshotId" and "VolumeId" (modelled by `toRecord`);
  * a boto3 client object exposes its modelled exceptions under the
    attribute `exceptions`; it has no attribute `exception`, so evaluating
    the handler expression `ec2_cli.exception.ClientError` (line 27 of the
    source) raises `AttributeError` at the moment a `delete_snapshot` call
    fails.  Python evaluates the exception class of an `except` clause only
    when an exception reaches it, so a failing delete makes that lookup run
    and the `AttributeError` replaces the `ClientError` in flight; the
    `return {"statusCode": 500, ...}` body below it is unreachable.
-/

namespace SnapshotReaper

/-- Result of one `describe_volume_status` call: success, or a botocore
`ClientError` carrying the provider's error code string. -/
inductive CheckResult where
  | ok : CheckResult
  | clientError : String → CheckResult
deriving DecidableEq, Repr

/-- Result of one `delete_snapshot` call: success, or a `ClientError`
carrying a message. -/
inductive DeleteResult where
  | ok : DeleteResult
  | clientError : String → DeleteResult
deriving DecidableEq, Repr

/-- A Python exception escaping the handler. -/
inductive PyErr where
  | keyError : String → PyErr
  | clientError : String → PyErr
  | attributeError : String → PyErr
deriving DecidableEq, Repr

/-- How one invocation ends: a returned response dict
(`statusCode`, optional `body`), or a raised exception. -/
inductive Outcome where
  | returned : Nat → Option String → Outcome
  | raised : PyErr → Outcome
deriving DecidableEq, Repr

/-- A snapshot as the provider knows it: its own id and the id of the
volume it was taken from. -/
structure Snapshot where
  snapshotId : String
  volumeId : String
deriving DecidableEq, Repr

/-- The external EC2 API as consumed by the handler: the current snapshot
listing and the (deterministic, per-invocation) behaviour of the
volume-status and delete calls. -/
structure Provider where
  snapshots : List Snapshot
  volCheck : String → CheckResult
  delSnap : String → DeleteResult

/-- Everything observable about one invocation: the volume ids passed to
`describe_volume_status` in order, the snapshot ids passed to
`delete_snapshot` in order, the log records emitted, and the outcome. -/
structure RunTrace where
  checkCalls : List String
  deleteCalls : List String
  logs : List String
  outcome : Outcome
deriving DecidableEq, Repr

/-- Python dict subscription `r[key]` on a string-valued record:
`none` models a raised `KeyError key`. -/
def getItem : List (String × String) → String → Option String
  | [], _ => none
  | (k, v) :: rest, key => if k = key then some v else getItem rest key

/-- The dict shape boto3 returns for one element of
`response["Snapshots"]`: fields keyed "SnapshotId" and "VolumeId". -/
def toRecord (s : Snapshot) : List (String × String) :=
  [("SnapshotId", s.snapshotId), ("VolumeId", s.volumeId)]

/-- Lines 10-20 of the source: the first loop.  For `each_snapshot` in the
listing, call `describe_volume_status(VolumeIds=[each_snapshot["VolumeId"]])`;
on a `ClientError` whose code is exactly "InvalidVolume.Notfound", append
`each_snapshot["snapshotid"]` to the accumulator `snapshot_id`; on any other
`ClientError` code, re-raise.  Returns the volume ids checked so far and
either the finished `snapshot_id` list or the raised exception. -/
def collectOrphans (p : Provider) :
    List Snapshot → List String → List String →
    List String × Except PyErr (List String)
  | [], checks, acc => (checks, Except.ok acc)
  | s :: rest, checks, acc =>
    match getItem (toRecord s) "VolumeId" with
    | none => (checks, Except.error (PyErr.keyError "VolumeId"))
    | some vid =>
      match p.volCheck vid with
      | CheckResult.ok => collectOrphans p rest (checks ++ [vid]) acc
      | CheckResult.clientError code =>
        if code = "InvalidVolume.Notfound" then
          match getItem (toRecord s) "snapshotid" with
          | none => (checks ++ [vid], Except.error (PyErr.keyError "snapshotid"))
          | some sid => collectOrphans p rest (checks ++ [vid]) (acc ++ [sid])
        else (checks ++ [vid], Except.error (PyErr.clientError code))

/-- Lines 22-31 of the source: the deletion loop over `snapshot_id`.  Each
iteration calls `delete_snapshot`; on success it logs
`f"Deleted SnapshotId {each_snap}"`; on a `ClientError` the `except` clause
evaluates `ec2_cli.exception.ClientError`, which raises
`AttributeError("exception")` (boto3 clients have no `exception` attribute),
so the 500-response return statement is never reached.  Returns the delete
calls made, the logs emitted, and the outcome (falling through the loop
reaches line 32, `return {"statusCode": 200}`). -/
def deleteOrphans (p : Provider) : List String → List String × List String × Outcome
  | [] => ([], [], Outcome.returned 200 none)
  | sid :: rest =>
    match p.delSnap sid with
    | DeleteResult.ok =>
      match deleteOrphans p rest with
      | (dcalls, logs, out) =>
        (sid :: dcalls, ("Deleted SnapshotId " ++ sid) :: logs, out)
    | DeleteResult.clientError _ =>
      ([sid], [], Outcome.raised (PyErr.attributeError "exception"))

/-- The whole handler, lines 7-32 of the source.  `event` and `context` are
the lambda's two parameters; the body never reads them. -/
def lambda_handler {α β : Type} (event : α) (context : β) (p : Provider) : RunTrace :=
  match collectOrphans p p.snapshots [] [] with
  | (checks, Except.error e) => ⟨checks, [], [], Outcome.raised e⟩
  | (checks, Except.ok orphans) =>
    match deleteOrphans p orphans with
    | (dcalls, logs, out) => ⟨checks, dcalls, logs, out⟩

/-- One invocation with an arbitrary (unused) trigger payload and context. -/
def runHandler (p : Provider) : RunTrace :=
  lambda_handler () () p

/-- The `snapshot_id` list as it stands at line 22 (or the exception that
ended the first loop): the run's orphan set. -/
def orphanSet (p : Provider) : Except PyErr (List String) :=
  (collectOrphans p p.snapshots [] []).2

/-- Predicate on an outcome: the handler returned (rather than raised). -/
def isReturned : Outcome → Bool
  | Outcome.returned _ _ => true
  | Outcome.raised _ => false

/-! ### A provider backed by a concrete world state, for the two-run claim -/

/-- Ground truth held by the cloud provider: which volumes exist and which
snapshots exist. -/
structure World where
  volumes : List String
  snapshots : List Snapshot
deriving DecidableEq, Repr

/-- The provider as AWS implements it over a world: `describe_volume_status`
on a missing volume raises `ClientError` with the standard code
"InvalidVolume.NotFound" (capital F), and `delete_snapshot` succeeds. -/
def providerOf (w : World) : Provider where
  snapshots := w.snapshots
  volCheck := fun v =>
    if v ∈ w.volumes then CheckResult.ok
    else CheckResult.clientError "InvalidVolume.NotFound"
  delSnap := fun _ => DeleteResult.ok

/-- The world after one invocation: the snapshots whose deletion the run
requested are gone; nothing else changes. -/
def applyDeletes (w : World) (deleted : List String) : World where
  volumes := w.volumes
  snapshots := w.snapshots.filter (fun s => !(deleted.contains s.snapshotId))

/-- One invocation against a world: the trace and the successor world. -/
def stepWorld (w : World) : RunTrace × World :=
  let t := runHandler (providerOf w)
  (t, applyDeletes w t.deleteCalls)

/-! ### Concrete providers used as witnesses and failing inputs -/

/-- An account with no snapshots at all. -/
def pEmpty : Provider where
  snapshots := []
  volCheck := fun _ => CheckResult.ok
  delSnap := fun _ => DeleteResult.ok

/-- One snapshot whose volume-status check reports the exact code the source
compares against ("InvalidVolume.Notfound", lowercase f). -/
def pOrphan : Provider where
  snapshots := [⟨"snap-1", "vol-1"⟩]
  volCheck := fun _ => CheckResult.clientError "InvalidVolume.Notfound"
  delSnap := fun _ => DeleteResult.ok

/-- Two snapshots: snap-1's volume check reports the code-matched not-found,
snap-2's volume exists. -/
def pOrphan2 : Provider where
  snapshots := [⟨"snap-1", "vol-1"⟩, ⟨"snap-2", "vol-2"⟩]
  volCheck := fun v =>
    if v = "vol-1" then CheckResult.clientError "InvalidVolume.Notfound"
    else CheckResult.ok
  delSnap := fun _ => DeleteResult.ok

/-- One snapshot whose volume check fails with an unrelated code. -/
def pAuthFail : Provider where
  snapshots := [⟨"snap-1", "vol-1"⟩]
  volCheck := fun _ => CheckResult.clientError "AuthFailure"
  delSnap := fun _ => DeleteResult.ok

/-- One snapshot whose volume check reports the standard AWS not-found code
("InvalidVolume.NotFound", capital F). -/
def pNotFoundAWS : Provider where
  snapshots := [⟨"snap-1", "vol-1"⟩]
  volCheck := fun _ => CheckResult.clientError "InvalidVolume.NotFound"
  delSnap := fun _ => DeleteResult.ok

/-- A provider whose delete calls fail, to exercise the deletion loop's
failure branch in isolation. -/
def pDelFail : Provider where
  snapshots := []
  volCheck := fun _ => CheckResult.ok
  delSnap := fun _ => DeleteResult.clientError "AccessDenied"

/-- One orphaned snapshot (code-matched not-found) whose deletion, were it
ever attempted, would fail with AccessDenied. -/
def pC3 : Provider where
  snapshots := [⟨"snap-1", "vol-1"⟩]
  volCheck := fun _ => CheckResult.clientError "InvalidVolume.Notfound"
  delSnap := fun _ => DeleteResult.clientError "AccessDenied"

/-- A world holding one snapshot, snap-1, whose source volume vol-1 no
longer exists. -/
def w1 : World where
  volumes := []
  snapshots := [⟨"snap-1", "vol-1"⟩]


lemma getItem_volumeId (s : Snapshot) : getItem (toRecord s) "VolumeId" = some s.volumeId := rfl

lemma getItem_snapshotid (s : Snapshot) : getItem (toRecord s) "snapshotid" = none := rfl

lemma collect_abort (p : Provider) :
    ∀ (l : List Snapshot) (checks acc : List String),
      (∀ w ∈ checks, p.volCheck w = CheckResult.ok) →
      ∀ v c, v ∈ (collectOrphans p l checks acc).1 →
        p.volCheck v = CheckResult.clientError c →
        (collectOrphans p l checks acc).2 =
          Except.error (if c = "InvalidVolume.Notfound"
            then PyErr.keyError "snapshotid" else PyErr.clientError c) := by
  intro l
  induction l with
  | nil =>
    intro checks acc hok v c hv hc
    rw [hok v hv] at hc
    simp at hc
  | cons s rest ih =>
    intro checks acc hok v c hv hc
    cases hvc : p.volCheck s.volumeId with
    | ok =>
      have hstep : collectOrphans p (s :: rest) checks acc
          = collectOrphans p rest (checks ++ [s.volumeId]) acc := by
        simp [collectOrphans, getItem_volumeId, hvc]
      rw [hstep] at hv ⊢
      refine ih (checks ++ [s.volumeId]) acc ?_ v c hv hc
      intro w hw
      rcases List.mem_append.mp hw with h | h
      · exact hok w h
      · rw [List.mem_singleton.mp h]
        exact hvc
    | clientError code =>
      by_cases hcode : code = "InvalidVolume.Notfound"
      · have hstep : collectOrphans p (s :: rest) checks acc
            = (checks ++ [s.volumeId], Except.error (PyErr.keyError "snapshotid")) := by
          simp [collectOrphans, getItem_volumeId, getItem_snapshotid, hvc, hcode]
        rw [hstep] at hv ⊢
        rcases List.mem_append.mp hv with h | h
        · rw [hok v h] at hc
          simp at hc
        · rw [List.mem_singleton.mp h, hvc] at hc
          injection hc with hcc
          rw [← hcc, hcode, if_pos rfl]
      · have hstep : collectOrphans p (s :: rest) checks acc
            = (checks ++ [s.volumeId], Except.error (PyErr.clientError code)) := by
          simp [collectOrphans, getItem_volumeId, hvc, hcode]
        rw [hstep] at hv ⊢
        rcases List.mem_append.mp hv with h | h
        · rw [hok v h] at hc
          simp at hc
        · rw [List.mem_singleton.mp h, hvc] at hc
          injection hc with hcc
          rw [← hcc, if_neg hcode]

lemma deleteOrphans_all_ok (p : Provider) :
    ∀ l : List String, (∀ s ∈ l, p.delSnap s = DeleteResult.ok) →
      deleteOrphans p l
        = (l, l.map (fun s => "Deleted SnapshotId " ++ s), Outcome.returned 200 none) := by
  intro l
  induction l with
  | nil => intro _; rfl
  | cons sid rest ih =>
    intro h
    have h1 : p.delSnap sid = DeleteResult.ok := h sid (List.mem_cons_self sid rest)
    have h2 := ih (fun s hs => h s (List.mem_cons_of_mem sid hs))
    simp [deleteOrphans, h1, h2]

lemma deleteOrphans_outcome (p : Provider) :
    ∀ l : List String, (deleteOrphans p l).2.2 = Outcome.returned 200 none ∨
      (deleteOrphans p l).2.2 = Outcome.raised (PyErr.attributeError "exception") := by
  intro l
  induction l with
  | nil => left; rfl
  | cons sid rest ih =>
    cases hd : p.delSnap sid with
    | ok =>
      rcases hrec : deleteOrphans p rest with ⟨d, ls, o⟩
      have hstep : deleteOrphans p (sid :: rest)
          = (sid :: d, ("Deleted SnapshotId " ++ sid) :: ls, o) := by
        simp [deleteOrphans, hd, hrec]
      rw [hstep]
      rw [hrec] at ih
      exact ih
    | clientError m =>
      right
      simp [deleteOrphans, hd]

lemma runHandler_error (p : Provider) (e : PyErr)
    (h : orphanSet p = Except.error e) :
    runHandler p = ⟨(collectOrphans p p.snapshots [] []).1, [], [], Outcome.raised e⟩ := by
  unfold orphanSet at h
  unfold runHandler lambda_handler
  rcases hcol : collectOrphans p p.snapshots [] [] with ⟨checks, r⟩
  rw [hcol] at h
  have hr : r = Except.error e := h
  subst hr
  rfl

lemma runHandler_ok (p : Provider) (l : List String)
    (h : orphanSet p = Except.ok l) :
    runHandler p = ⟨(collectOrphans p p.snapshots [] []).1,
      (deleteOrphans p l).1, (deleteOrphans p l).2.1, (deleteOrphans p l).2.2⟩ := by
  unfold orphanSet at h
  unfold runHandler lambda_handler
  rcases hcol : collectOrphans p p.snapshots [] [] with ⟨checks, r⟩
  rw [hcol] at h
  have hr : r = Except.ok l := h
  subst hr
  rcases hdel : deleteOrphans p l with ⟨d, ls, o⟩
  simp [hdel]


lemma runHandler_checkCalls (p : Provider) :
    (runHandler p).checkCalls = (collectOrphans p p.snapshots [] []).1 := by
  unfold runHandler lambda_handler
  rcases hcol : collectOrphans p p.snapshots [] [] with ⟨checks, r⟩
  cases r with
  | error e => rfl
  | ok orphans =>
    rcases hdel : deleteOrphans p orphans with ⟨d, ls, o⟩
    simp [hdel]

/-- C2: if a volume-existence check performed during an invocation fails with
a ClientError whose code is anything other than the compared-against string,
the run aborts by re-raising exactly that error, no delete call is made, and
no response is returned (the failure is not swallowed). -/
theorem check_error_aborts_run (p : Provider) (v c : String)
    (hv : v ∈ (runHandler p).checkCalls)
    (hc : p.volCheck v = CheckResult.clientError c)
    (hne : c ≠ "InvalidVolume.Notfound") :
    (runHandler p).outcome = Outcome.raised (PyErr.clientError c) ∧
    (runHandler p).deleteCalls = [] ∧
    isReturned (runHandler p).outcome = false := by
  have hv1 : v ∈ (collectOrphans p p.snapshots [] []).1 := by
    rw [← runHandler_checkCalls]; exact hv
  have habort := collect_abort p p.snapshots [] []
    (fun w hw => absurd hw (List.not_mem_nil w)) v c hv1 hc
  rw [if_neg hne] at habort
  have hrun := runHandler_error p (PyErr.clientError c) habort
  rw [hrun]
  exact ⟨rfl, rfl, rfl⟩

theorem check_error_aborts_run_witness :
    (runHandler pAuthFail).outcome = Outcome.raised (PyErr.clientError "AuthFailure") ∧
    (runHandler pAuthFail).deleteCalls = [] ∧
    isReturned (runHandler pAuthFail).outcome = false :=
  check_error_aborts_run pAuthFail "vol-1" "AuthFailure" (by decide) (by decide) (by decide)

/-- C9: the not-found classification is the exact case-sensitive comparison
of the error code with "InvalidVolume.Notfound": a check failing with any
other code — the standard AWS spelling "InvalidVolume.NotFound" included —
is re-raised and aborts the run; the first loop ends in that re-raise, so
the snapshot is never appended to the orphan set. -/
theorem notfound_comparison_case_sensitive (p : Provider) (v c : String)
    (hv : v ∈ (runHandler p).checkCalls)
    (hc : p.volCheck v = CheckResult.clientError c)
    (hne : c ≠ "InvalidVolume.Notfound") :
    orphanSet p = Except.error (PyErr.clientError c) ∧
    (runHandler p).outcome = Outcome.raised (PyErr.clientError c) ∧
    (runHandler p).logs = [] := by
  have hv1 : v ∈ (collectOrphans p p.snapshots [] []).1 := by
    rw [← runHandler_checkCalls]; exact hv
  have habort := collect_abort p p.snapshots [] []
    (fun w hw => absurd hw (List.not_mem_nil w)) v c hv1 hc
  rw [if_neg hne] at habort
  have hrun := runHandler_error p (PyErr.clientError c) habort
  rw [hrun]
  exact ⟨habort, rfl, rfl⟩

theorem notfound_comparison_case_sensitive_witness :
    orphanSet pNotFoundAWS = Except.error (PyErr.clientError "InvalidVolume.NotFound") ∧
    (runHandler pNotFoundAWS).outcome
      = Outcome.raised (PyErr.clientError "InvalidVolume.NotFound") ∧
    (runHandler pNotFoundAWS).logs = [] :=
  notfound_comparison_case_sensitive pNotFoundAWS "vol-1" "InvalidVolume.NotFound"
    (by decide) (by decide) (by decide)

/-- C10: whenever a volume-existence check performed during an invocation
fails with the code the source classifies as not-found, the marking step
reads `each_snapshot["snapshotid"]` from a record whose key is "SnapshotId",
so the invocation raises KeyError("snapshotid"), makes no delete call, and
returns no structured response. -/
theorem notfound_marking_raises_keyerror (p : Provider) (v : String)
    (hv : v ∈ (runHandler p).checkCalls)
    (hc : p.volCheck v = CheckResult.clientError "InvalidVolume.Notfound") :
    (runHandler p).outcome = Outcome.raised (PyErr.keyError "snapshotid") ∧
    (runHandler p).deleteCalls = [] ∧
    isReturned (runHandler p).outcome = false := by
  have hv1 : v ∈ (collectOrphans p p.snapshots [] []).1 := by
    rw [← runHandler_checkCalls]; exact hv
  have habort := collect_abort p p.snapshots [] []
    (fun w hw => absurd hw (List.not_mem_nil w)) v "InvalidVolume.Notfound" hv1 hc
  rw [if_pos rfl] at habort
  have hrun := runHandler_error p (PyErr.keyError "snapshotid") habort
  rw [hrun]
  exact ⟨rfl, rfl, rfl⟩

theorem notfound_marking_raises_keyerror_witness :
    (runHandler pOrphan).outcome = Outcome.raised (PyErr.keyError "snapshotid") ∧
    (runHandler pOrphan).deleteCalls = [] ∧
    isReturned (runHandler pOrphan).outcome = false :=
  notfound_marking_raises_keyerror pOrphan "vol-1" (by decide) (by decide)

/-- C4: an invocation whose first loop completes with an empty orphan set
returns `{"statusCode": 200}` and makes no delete call; and whenever every
delete call on the collected orphan set succeeds, the invocation likewise
returns `{"statusCode": 200}`. -/
theorem empty_or_all_ok_returns_200 (p : Provider) (l : List String)
    (h : orphanSet p = Except.ok l) :
    (l = [] → (runHandler p).outcome = Outcome.returned 200 none ∧
      (runHandler p).deleteCalls = []) ∧
    ((∀ s ∈ l, p.delSnap s = DeleteResult.ok) →
      (runHandler p).outcome = Outcome.returned 200 none) := by
  have hrun := runHandler_ok p l h
  constructor
  · intro hl
    subst hl
    rw [hrun]
    exact ⟨rfl, rfl⟩
  · intro hall
    rw [hrun]
    rw [deleteOrphans_all_ok p l hall]

theorem empty_or_all_ok_returns_200_witness :
    (runHandler pEmpty).outcome = Outcome.returned 200 none ∧
    (runHandler pEmpty).deleteCalls = [] :=
  (empty_or_all_ok_returns_200 pEmpty [] rfl).1 rfl


/-- C1 (failing evaluation): with one snapshot snap-1 whose volume check
reports the code-matched not-found, the spec's invariant requires snap-1 to
appear exactly once in the orphan set; instead the marking step raises
KeyError("snapshotid") and the run aborts with no orphan set, snap-1 never
having been appended. -/
theorem orphan_invariant_fails_eval :
    runHandler pOrphan
      = ⟨["vol-1"], [], [], Outcome.raised (PyErr.keyError "snapshotid")⟩ ∧
    orphanSet pOrphan = Except.error (PyErr.keyError "snapshotid") :=
  ⟨by decide, rfl⟩

/-- C3 (failing evaluation): with an orphaned snapshot present the handler
raises KeyError("snapshotid") before any deletion is attempted; and even the
deletion loop taken in isolation on a non-empty orphan list, with
`delete_snapshot` failing, raises AttributeError("exception") — the boto3
client has no `exception` attribute — so the 500 response with the snapshot
id and error is never returned. -/
theorem deletion_failure_returns_no_500_eval :
    runHandler pC3
      = ⟨["vol-1"], [], [], Outcome.raised (PyErr.keyError "snapshotid")⟩ ∧
    deleteOrphans pC3 ["snap-1"]
      = (["snap-1"], [], Outcome.raised (PyErr.attributeError "exception")) := by
  decide

/-- C5 (failing evaluation): with snap-1 orphaned (volume gone, code-matched
not-found) and snap-2 healthy, the claim requires snap-1 to be deleted and
logged; instead the run raises KeyError("snapshotid") at the marking step:
no delete call is made, no log record is emitted, and snap-2's volume is
never even checked. -/
theorem ordered_deletion_fails_eval :
    runHandler pOrphan2
      = ⟨["vol-1"], [], [], Outcome.raised (PyErr.keyError "snapshotid")⟩ := by
  decide

/-- C6 (counterexample): an invocation whose single volume check fails with
code "AuthFailure" raises that ClientError: it produces no returned result
at all, so the result neither indicates how many orphans were deleted nor
reports a deletion error. -/
theorem result_reports_count_counterexample :
    (runHandler pAuthFail).outcome = Outcome.raised (PyErr.clientError "AuthFailure") ∧
    isReturned (runHandler pAuthFail).outcome = false ∧
    (runHandler pAuthFail).deleteCalls = [] := by
  decide

/-- C6 (amended): every invocation either returns the bare success response
`{"statusCode": 200}` — which carries no deletion count — or raises an
error; no returned result ever reports a deletion count or a deletion
error. -/
theorem run_returns_bare_200_or_raises (p : Provider) :
    (runHandler p).outcome = Outcome.returned 200 none ∨
    ∃ e, (runHandler p).outcome = Outcome.raised e := by
  cases horph : orphanSet p with
  | error e =>
    right
    exact ⟨e, by rw [runHandler_error p e horph]⟩
  | ok l =>
    have hrun := runHandler_ok p l horph
    rcases deleteOrphans_outcome p l with h | h
    · left
      rw [hrun]
      exact h
    · right
      exact ⟨_, by rw [hrun]; exact h⟩

theorem run_returns_bare_200_or_raises_witness :
    (runHandler pEmpty).outcome = Outcome.returned 200 none ∨
    ∃ e, (runHandler pEmpty).outcome = Outcome.raised e :=
  run_returns_bare_200_or_raises pEmpty

/-- C7 (failing evaluation): over the world w1 — one snapshot snap-1 whose
volume vol-1 is gone, the provider reporting the standard code
"InvalidVolume.NotFound" — the first run aborts with that re-raised
ClientError (the code-side comparison string differs in case), deletes
nothing, and leaves the world unchanged; the second run then raises the
same error, contradicting the claim that the second run produces no
error. -/
theorem second_run_errors_again_eval :
    (stepWorld w1).1.outcome = Outcome.raised (PyErr.clientError "InvalidVolume.NotFound") ∧
    (stepWorld w1).1.deleteCalls = [] ∧
    (stepWorld w1).2 = w1 ∧
    (stepWorld (stepWorld w1).2).1.outcome
      = Outcome.raised (PyErr.clientError "InvalidVolume.NotFound") := by
  decide

/-- C8: the handler body never reads its `event` and `context` parameters:
two invocations differing only in trigger payload and execution context,
against the same provider, produce identical traces — the same check calls,
the same delete calls, the same logs and the same outcome. -/
theorem handler_reads_no_event_or_context {α β : Type} (e₁ e₂ : α) (c₁ c₂ : β)
    (p : Provider) :
    lambda_handler e₁ c₁ p = lambda_handler e₂ c₂ p := rfl

theorem handler_reads_no_event_or_context_witness :
    lambda_handler (0 : Nat) "payload" pOrphan = lambda_handler (1 : Nat) "ctx" pOrphan :=
  handler_reads_no_event_or_context 0 1 "payload" "ctx" pOrphan

end SnapshotReaper
